import Mathlib

/-
  Shallow embedding of the HPS IRQ driver (Drivers/HPS_IRQ/HPS_IRQ.c).

  The driver's registry of interrupt handlers, the user-facing API
  (initialise, globalEnable, registerHandler(s), unregisterHandler(s)),
  the internal helpers (_HPS_IRQ_findHandler, _HPS_IRQ_growTable,
  _HPS_IRQ_doRegister, _HPS_IRQ_doUnregister), the IRQ dispatch routine
  (__irq_isr) and the SVC immediate decode of __svc_isr are translated
  into pure Lean functions.

  Modelling conventions:
  - C pointers to functions are `IsrFunc` (null, a user function tagged by
    a number, or the driver's built-in HPS_IRQ_unhandledIRQ).
  - `void*` parameters are `Nat` (0 plays the role of NULL).
  - The global driver state (__isInitialised, __isr_handler_count +
    __isr_handlers, __isr_unhandledIRQCallback) together with the CPSR
    interrupt mask bit is an `IRQState`; the handler array and its count
    are one `List`.
  - Writes to the GIC CPU-interface / distributor registers are hardware
    effects: in the dispatch routine they are recorded as trace events
    (the end-of-interrupt write), in the register/unregister helpers the
    distributor set-enable/clear-enable/affinity writes are outside the
    registry model and not recorded.
  - `realloc` may fail; an explicit `allocOk` argument decides whether the
    allocation in _HPS_IRQ_growTable succeeds, and a `junk` argument gives
    the indeterminate contents of freshly reallocated slots.
-/

/-- Result codes of the driver API. Modelled from the spec's error
taxonomy (§7: not-initialized, null-pointer, allocation-failure,
not-found, skipped, success); the numeric values of Util/error.h are not
under src/. -/
inductive HpsErr where
  | ERR_SUCCESS
  | ERR_SKIPPED
  | ERR_NOINIT
  | ERR_NULLPTR
  | ERR_ALLOCFAIL
  | ERR_NOTFOUND
deriving DecidableEq

/-- Modelled from the spec: `IS_ERROR` of Util/error.h is not under src/;
per the spec's taxonomy, success and "skipped" are non-error statuses and
the rest are errors. -/
def IS_ERROR : HpsErr → Bool
  | HpsErr.ERR_SUCCESS => false
  | HpsErr.ERR_SKIPPED => false
  | _ => true

/-- A C function pointer used as an interrupt callback: NULL, a
user-supplied function (tagged by an arbitrary number), or the driver's
built-in default unhandled-IRQ handler HPS_IRQ_unhandledIRQ. -/
inductive IsrFunc where
  | null
  | fn (k : Nat)
  | unhandledIRQ
deriving DecidableEq

/-- The IsrHandler_t record of HPS_IRQ.c: interrupt ID, callback function
pointer, opaque parameter pointer, enabled flag. -/
structure IsrHandler_t where
  interruptID : Nat
  handler : IsrFunc
  param : Nat
  enabled : Bool
deriving DecidableEq

/-- Placeholder record used as the `getD` default when indexing the
handler list. -/
def nullIsrHandler : IsrHandler_t :=
  { interruptID := 0, handler := IsrFunc.null, param := 0, enabled := false }

/-- The driver's global state: __isInitialised, the handler table
(__isr_handlers with __isr_handler_count = handlers.length), the
unhandled-IRQ fallback pointer, and the processor's IRQ mask bit
(CPSR I-bit), which the driver manipulates through
__disable_irq/__enable_irq. -/
structure IRQState where
  isInitialised : Bool
  handlers : List IsrHandler_t
  unhandledIRQCallback : IsrFunc
  irqMasked : Bool
deriving DecidableEq

/-- Modelled from the spec: __disable_irq lives in Util/lowlevel.h which
is not under src/. Per the spec (§6) it is "a processor-mode-aware
interrupt-mask toggle returning the prior mask state": it masks IRQs and
returns true iff they were already masked. -/
def __disable_irq (st : IRQState) : Bool × IRQState :=
  (st.irqMasked, { st with irqMasked := true })

/-- Modelled from the spec: __enable_irq (Util/lowlevel.h, not under
src/) unmasks IRQ delivery. -/
def __enable_irq (st : IRQState) : IRQState :=
  { st with irqMasked := false }

/-- HPS_IRQ_isInitialised: returns the __isInitialised flag. -/
def HPS_IRQ_isInitialised (st : IRQState) : Bool :=
  st.isInitialised

/-- HPS_IRQ_initialise: masks IRQs, programs the GIC (ICCPMR, ICCICR,
ICDDCR — hardware effects outside this model), empties the handler
table, installs the user fallback or the built-in HPS_IRQ_unhandledIRQ,
unmasks IRQs and sets the initialised flag. -/
def HPS_IRQ_initialise (st : IRQState) (userUnhandledIRQCallback : IsrFunc) :
    HpsErr × IRQState :=
  let st1 := (__disable_irq st).2
  let st2 := { st1 with handlers := [] }
  let st3 := { st2 with
    unhandledIRQCallback :=
      if userUnhandledIRQCallback ≠ IsrFunc.null then userUnhandledIRQCallback
      else IsrFunc.unhandledIRQ }
  let st4 := __enable_irq st3
  (HpsErr.ERR_SUCCESS, { st4 with isInitialised := true })

/-- HPS_IRQ_globalEnable: enabling requires initialisation and unmasks;
disabling masks and returns ERR_SUCCESS when __disable_irq reported the
prior state as masked, ERR_SKIPPED otherwise (the exact ternary
`wasMasked ? ERR_SUCCESS : ERR_SKIPPED` of the source). -/
def HPS_IRQ_globalEnable (st : IRQState) (enable : Bool) : HpsErr × IRQState :=
  if enable then
    if !(HPS_IRQ_isInitialised st) then (HpsErr.ERR_NOINIT, st)
    else (HpsErr.ERR_SUCCESS, __enable_irq st)
  else
    let wasSt := __disable_irq st
    (if wasSt.1 then HpsErr.ERR_SUCCESS else HpsErr.ERR_SKIPPED, wasSt.2)

/-- _HPS_IRQ_findHandler: linear scan for the first slot whose
interruptID matches; returns the count (list length) when no slot
matches, exactly as the C loop falls off the end. The enabled flag is
not consulted. -/
def _HPS_IRQ_findHandler (handlers : List IsrHandler_t) (interruptID : Nat) : Nat :=
  handlers.findIdx (fun h => h.interruptID == interruptID)

/-- _HPS_IRQ_doRegister: overwrite slot `handler` with the new record and
mark it enabled. The GIC distributor set-enable and affinity writes are
hardware effects outside the registry model. -/
def _HPS_IRQ_doRegister (handlers : List IsrHandler_t) (handler : Nat)
    (interruptID : Nat) (handlerFunction : IsrFunc) (handlerParam : Nat) :
    List IsrHandler_t :=
  handlers.set handler
    { interruptID := interruptID, handler := handlerFunction,
      param := handlerParam, enabled := true }

/-- _HPS_IRQ_growTable: no-op success on zero growth; on allocation
failure returns ERR_ALLOCFAIL leaving the table unchanged; on success
reallocates, preserving existing records and appending `growByN` slots of
indeterminate content (`junk`), and adds growByN to the count. -/
def _HPS_IRQ_growTable (allocOk : Bool) (junk : Nat → IsrHandler_t)
    (st : IRQState) (growByN : Nat) : HpsErr × IRQState :=
  if growByN = 0 then (HpsErr.ERR_SUCCESS, st)
  else if !allocOk then (HpsErr.ERR_ALLOCFAIL, st)
  else (HpsErr.ERR_SUCCESS,
    { st with handlers := st.handlers ++ (List.range growByN).map junk })

/-- _HPS_IRQ_doUnregister: masks IRQs, clears the slot's function pointer
and enabled flag (interruptID and param are left as they are), clears the
distributor enable bit (hardware effect outside the model), and restores
the prior mask state. -/
def _HPS_IRQ_doUnregister (st : IRQState) (handler : Nat) : IRQState :=
  let wasSt := __disable_irq st
  let st1 := wasSt.2
  let old := st1.handlers.getD handler nullIsrHandler
  let st2 := { st1 with
    handlers := st1.handlers.set handler
      { old with handler := IsrFunc.null, enabled := false } }
  if !wasSt.1 then __enable_irq st2 else st2

/-- HPS_IRQ_registerHandler: find an existing slot for the ID (the slot
of a previously unregistered record still matches), mask IRQs, grow the
table by one if the ID was not found — returning the grow error without
restoring the mask, as the C early return does — then write the record
and restore the prior mask state. -/
def HPS_IRQ_registerHandler (allocOk : Bool) (junk : Nat → IsrHandler_t)
    (st : IRQState) (interruptID : Nat) (handlerFunction : IsrFunc)
    (handlerParam : Nat) : HpsErr × IRQState :=
  if !(HPS_IRQ_isInitialised st) then (HpsErr.ERR_NOINIT, st)
  else
    let handler := _HPS_IRQ_findHandler st.handlers interruptID
    let wasSt := __disable_irq st
    let was_masked := wasSt.1
    let st1 := wasSt.2
    let grown :=
      if handler = st1.handlers.length then _HPS_IRQ_growTable allocOk junk st1 1
      else (HpsErr.ERR_SUCCESS, st1)
    if IS_ERROR grown.1 then (grown.1, grown.2)
    else
      let st2 := { grown.2 with
        handlers := _HPS_IRQ_doRegister grown.2.handlers handler interruptID
          handlerFunction handlerParam }
      (HpsErr.ERR_SUCCESS, if !was_masked then __enable_irq st2 else st2)

/-- The first for-loop of HPS_IRQ_registerHandlers: for each interrupt ID
(read in index order) look it up in the pre-call table; a found ID keeps
its slot, a not-found ID is assigned slot count + growBy (`handler +=
growBy; growBy++`), so every not-found index — duplicates included — gets
its own fresh slot. Returns the per-index slots and the final growBy. -/
def _regScanLoop (hs : List IsrHandler_t) (growBy : Nat) :
    List Nat → List Nat × Nat
  | [] => ([], growBy)
  | interruptID :: rest =>
    let handler := _HPS_IRQ_findHandler hs interruptID
    if handler = hs.length then
      let next := _regScanLoop hs (growBy + 1) rest
      ((handler + growBy) :: next.1, next.2)
    else
      let next := _regScanLoop hs growBy rest
      (handler :: next.1, next.2)

/-- The second for-loop of HPS_IRQ_registerHandlers: write each record
`_HPS_IRQ_doRegister(handlers[idx], interruptIDs[idx],
handlerFunctions[idx], param)` in index order over the four parallel
arrays. -/
def _regWriteLoop (hs : List IsrHandler_t) :
    List Nat → List Nat → List IsrFunc → List Nat → List IsrHandler_t
  | slot :: slots, interruptID :: ids, fn :: fns, p :: ps =>
    _regWriteLoop (_HPS_IRQ_doRegister hs slot interruptID fn p) slots ids fns ps
  | _, _, _, _ => hs

/-- HPS_IRQ_registerHandlers: validates initialisation and the two array
pointers (a null params array is read as all-NULL parameters), scans the
pre-call table assigning a slot per index, masks IRQs, grows the table by
the total number of not-found indices — returning the grow error without
restoring the mask, as the C early return does — writes all records, and
restores the prior mask state. The C arrays are read at indices
0..count-1, materialised here as lists of length `count`. -/
def HPS_IRQ_registerHandlers (allocOk : Bool) (junk : Nat → IsrHandler_t)
    (st : IRQState) (interruptIDs : Option (List Nat))
    (handlerFunctions : Option (List IsrFunc))
    (handlerParams : Option (List Nat)) (count : Nat) : HpsErr × IRQState :=
  if !(HPS_IRQ_isInitialised st) then (HpsErr.ERR_NOINIT, st)
  else
    match interruptIDs, handlerFunctions with
    | some idsArr, some fnsArr =>
      let ids := (List.range count).map (fun idx => idsArr.getD idx 0)
      let fns := (List.range count).map (fun idx => fnsArr.getD idx IsrFunc.null)
      let params := (List.range count).map (fun idx =>
        match handlerParams with
        | none => 0
        | some ps => ps.getD idx 0)
      let scan := _regScanLoop st.handlers 0 ids
      let wasSt := __disable_irq st
      let was_masked := wasSt.1
      let st1 := wasSt.2
      let grown := _HPS_IRQ_growTable allocOk junk st1 scan.2
      if IS_ERROR grown.1 then (grown.1, grown.2)
      else
        let st2 := { grown.2 with
          handlers := _regWriteLoop grown.2.handlers scan.1 ids fns params }
        (HpsErr.ERR_SUCCESS, if !was_masked then __enable_irq st2 else st2)
    | _, _ => (HpsErr.ERR_NULLPTR, st)

/-- HPS_IRQ_unregisterHandler: look the ID up (a previously unregistered
slot still matches by interruptID); when a slot is found, disable it and
succeed, otherwise ERR_NOTFOUND. -/
def HPS_IRQ_unregisterHandler (st : IRQState) (interruptID : Nat) :
    HpsErr × IRQState :=
  if !(HPS_IRQ_isInitialised st) then (HpsErr.ERR_NOINIT, st)
  else
    let handler := _HPS_IRQ_findHandler st.handlers interruptID
    if handler ≠ st.handlers.length then
      (HpsErr.ERR_SUCCESS, _HPS_IRQ_doUnregister st handler)
    else (HpsErr.ERR_NOTFOUND, st)

/-- The loop of HPS_IRQ_unregisterHandlers: per ID, disable the slot when
found, otherwise downgrade the running status to ERR_NOTFOUND; the rest
of the batch is still processed. -/
def _unregLoop (acc : HpsErr × IRQState) : List Nat → HpsErr × IRQState
  | [] => acc
  | interruptID :: rest =>
    let st := acc.2
    let handler := _HPS_IRQ_findHandler st.handlers interruptID
    if handler ≠ st.handlers.length then
      _unregLoop (acc.1, _HPS_IRQ_doUnregister st handler) rest
    else
      _unregLoop (HpsErr.ERR_NOTFOUND, st) rest

/-- HPS_IRQ_unregisterHandlers: validates initialisation and the array
pointer, then unregisters each ID in order, reporting ERR_NOTFOUND iff at
least one ID had no slot. -/
def HPS_IRQ_unregisterHandlers (st : IRQState)
    (interruptIDs : Option (List Nat)) (count : Nat) : HpsErr × IRQState :=
  if !(HPS_IRQ_isInitialised st) then (HpsErr.ERR_NOINIT, st)
  else
    match interruptIDs with
    | some idsArr =>
      let ids := (List.range count).map (fun idx => idsArr.getD idx 0)
      _unregLoop (HpsErr.ERR_SUCCESS, st) ids
    | none => (HpsErr.ERR_NULLPTR, st)

/-- Observable events of one entry into the IRQ dispatch routine:
invoking a registered slot's callback (with the slot index, the stored
function pointer, the acknowledged ID and the stored parameter), invoking
the unhandled-IRQ fallback with (ID, NULL, NULL), and the write of the
acknowledged ID to the end-of-interrupt register ICCEOIR. -/
inductive IrqEvent where
  | invokeCallback (idx : Nat) (fn : IsrFunc) (id : Nat) (param : Nat)
  | invokeFallback (fn : IsrFunc) (id : Nat)
  | writeEOI (id : Nat)
deriving DecidableEq

/-- Whether an event is the end-of-interrupt register write. -/
def IrqEvent.isEOI : IrqEvent → Bool
  | IrqEvent.writeEOI _ => true
  | _ => false

/-- The initialised-path body of __irq_isr as its event trace: read the
acknowledged ID (ICCIAR, the `int_ID` argument), scan for the first slot
whose interruptID matches — the enabled flag is not consulted — invoke
that slot's callback if found (breaking out of the loop), invoke the
fallback when no slot matched or the callback left `isr_handled` false,
and write the ID to ICCEOIR. `setsHandled` gives the callback's effect on
the `isr_handled` out-flag (the callback's body is application code
outside this driver). -/
def __irq_isr_body (st : IRQState) (setsHandled : IsrFunc → Nat → Nat → Bool)
    (int_ID : Nat) : List IrqEvent :=
  let idx := List.findIdx (fun h => h.interruptID == int_ID) st.handlers
  let found :=
    if h : idx < st.handlers.length then
      let slot := st.handlers.get ⟨idx, h⟩
      ([IrqEvent.invokeCallback idx slot.handler int_ID slot.param],
       setsHandled slot.handler int_ID slot.param)
    else ([], false)
  let fb :=
    if !found.2 then [IrqEvent.invokeFallback st.unhandledIRQCallback int_ID]
    else []
  found.1 ++ fb ++ [IrqEvent.writeEOI int_ID]

/-- __irq_isr wrapper: when uninitialised the routine branches to
__default_isr (out of scope) — modelled as `none` —, otherwise the trace
of the dispatch body is produced. -/
def __irq_isr (st : IRQState) (setsHandled : IsrFunc → Nat → Nat → Bool)
    (int_ID : Nat) : Option (List IrqEvent) :=
  if !st.isInitialised then none
  else some (__irq_isr_body st setsHandled int_ID)

/-- The SVC-immediate decode of __svc_isr: if the saved SPSR has the
Thumb bit set, LDRH loads the 16-bit instruction at lr−2 and
`BIC r0, r0, #0xFF00` keeps its low byte; otherwise LDR loads the 32-bit
instruction at lr−4 and `BIC r0, r0, #0xFF000000` keeps its low three
bytes. Memory is modelled by halfword/word fetch functions; loads
truncate to the access width. -/
def __svc_isr_decodeID (tbit : Bool) (lr : Nat)
    (mem16 : Nat → Nat) (mem32 : Nat → Nat) : Nat :=
  if tbit then mem16 (lr - 2) % 2 ^ 16 % 2 ^ 8
  else mem32 (lr - 4) % 2 ^ 32 % 2 ^ 24

/-- One registry-mutating API call. Register calls carry their own
allocator outcome (`allocOk`) and the indeterminate contents of freshly
reallocated slots (`junk`). -/
inductive RegOp where
  | register (allocOk : Bool) (junk : Nat → IsrHandler_t)
      (interruptID : Nat) (fn : IsrFunc) (param : Nat)
  | registerMany (allocOk : Bool) (junk : Nat → IsrHandler_t)
      (interruptIDs : Option (List Nat)) (handlerFunctions : Option (List IsrFunc))
      (handlerParams : Option (List Nat)) (count : Nat)
  | unregister (interruptID : Nat)
  | unregisterMany (interruptIDs : Option (List Nat)) (count : Nat)

/-- Apply one API call to the driver state, keeping the post state. -/
def applyOp (st : IRQState) : RegOp → IRQState
  | RegOp.register allocOk junk interruptID fn p =>
    (HPS_IRQ_registerHandler allocOk junk st interruptID fn p).2
  | RegOp.registerMany allocOk junk ids fns ps count =>
    (HPS_IRQ_registerHandlers allocOk junk st ids fns ps count).2
  | RegOp.unregister interruptID =>
    (HPS_IRQ_unregisterHandler st interruptID).2
  | RegOp.unregisterMany ids count =>
    (HPS_IRQ_unregisterHandlers st ids count).2

/-- Run a sequence of API calls from a starting state. -/
def runOps (st : IRQState) : List RegOp → IRQState
  | [] => st
  | op :: rest => runOps (applyOp st op) rest

/-- The interrupt IDs of the registry, slot by slot. -/
def idsOf (hs : List IsrHandler_t) : List Nat :=
  hs.map (fun h => h.interruptID)

/-- Structural registry invariant: no two slots carry the same
interruptID. -/
def DistinctIDs (hs : List IsrHandler_t) : Prop :=
  (idsOf hs).Nodup

/-- The registry property claimed by the spec: at most one enabled record
per interrupt ID. -/
def AtMostOneEnabled (hs : List IsrHandler_t) : Prop :=
  ∀ id : Nat, hs.countP (fun h => h.interruptID == id && h.enabled) ≤ 1

/-- Side condition under which a batch registration keeps interrupt IDs
unique: among the IDs read by the call (indices 0..count-1), those absent
from the pre-call registry occur only once. Duplicated IDs that are
already registered are harmless — they overwrite one existing slot. -/
def OkOp (st : IRQState) : RegOp → Prop
  | RegOp.registerMany _ _ (some idsArr) _ _ count =>
    (((List.range count).map (fun idx => idsArr.getD idx 0)).filter
      (fun id => _HPS_IRQ_findHandler st.handlers id == st.handlers.length)).Nodup
  | _ => True

/-- Every call of the sequence satisfies `OkOp` in the state where it is
issued. -/
def OkRun (st : IRQState) : List RegOp → Prop
  | [] => True
  | op :: rest => OkOp st op ∧ OkRun (applyOp st op) rest

/-- Indeterminate fresh-slot contents used for concrete runs. -/
def junkNull : Nat → IsrHandler_t := fun _ => nullIsrHandler

/-- An initialised driver with an empty registry, interrupts unmasked:
the state right after HPS_IRQ_initialise(NULL) from power-on. -/
def emptyInitState : IRQState :=
  { isInitialised := true, handlers := [],
    unhandledIRQCallback := IsrFunc.unhandledIRQ, irqMasked := false }

/-- The power-on state, before HPS_IRQ_initialise. -/
def uninitState : IRQState :=
  { isInitialised := false, handlers := [],
    unhandledIRQCallback := IsrFunc.null, irqMasked := false }

/-
  Theorems
-/

/-- C9: the SVC decode recovers the immediate from the trapping
instruction: with the Thumb bit set, the low 8 bits of the halfword at
(return-address − 2); otherwise the low 24 bits of the word at
(return-address − 4). In particular it recovers 0x42 from the ARM-mode
instruction word 0xEF000042 and 0x07 from the Thumb-mode halfword
0xDF07. -/
theorem svc_decode_recovers_id :
    (∀ (lr : Nat) (m16 m32 : Nat → Nat),
      __svc_isr_decodeID true lr m16 m32 = m16 (lr - 2) % 2 ^ 8) ∧
    (∀ (lr : Nat) (m16 m32 : Nat → Nat),
      __svc_isr_decodeID false lr m16 m32 = m32 (lr - 4) % 2 ^ 24) ∧
    __svc_isr_decodeID false 0x1000 (fun _ => 0) (fun _ => 0xEF000042) = 0x42 ∧
    __svc_isr_decodeID true 0x1000 (fun _ => 0xDF07) (fun _ => 0) = 0x07 := by
  refine ⟨fun lr m16 m32 => ?_, fun lr m16 m32 => ?_, by decide, by decide⟩
  · show m16 (lr - 2) % 2 ^ 16 % 2 ^ 8 = m16 (lr - 2) % 2 ^ 8
    exact Nat.mod_mod_of_dvd _ (by decide)
  · show m32 (lr - 4) % 2 ^ 32 % 2 ^ 24 = m32 (lr - 4) % 2 ^ 24
    exact Nat.mod_mod_of_dvd _ (by decide)

/-- C5 (code bug): from an initialised state with interrupts unmasked,
HPS_IRQ_globalEnable(false) returns ERR_SKIPPED on the first call (the
state did change to masked) and ERR_SUCCESS on the second (interrupts
were already masked) — the exact inverse of the behaviour documented in
the comment above the function — while HPS_IRQ_globalEnable(true) before
initialisation does return ERR_NOINIT. -/
theorem globalEnable_disable_twice_inverted :
    (HPS_IRQ_globalEnable emptyInitState false).1 = HpsErr.ERR_SKIPPED ∧
    (HPS_IRQ_globalEnable emptyInitState false).2.irqMasked = true ∧
    (HPS_IRQ_globalEnable
      (HPS_IRQ_globalEnable emptyInitState false).2 false).1 = HpsErr.ERR_SUCCESS ∧
    (HPS_IRQ_globalEnable uninitState true).1 = HpsErr.ERR_NOINIT := by
  decide

/-- C7 (code bug): with interrupts unmasked and the allocator failing,
both HPS_IRQ_registerHandler and HPS_IRQ_registerHandlers return
ERR_ALLOCFAIL through the early return that skips the final
__enable_irq, leaving interrupts masked even though they were unmasked
before the call. -/
theorem register_allocfail_leaves_irqs_masked :
    emptyInitState.irqMasked = false ∧
    HPS_IRQ_registerHandler false junkNull emptyInitState 5 (IsrFunc.fn 1) 0 =
      (HpsErr.ERR_ALLOCFAIL,
        { isInitialised := true, handlers := [],
          unhandledIRQCallback := IsrFunc.unhandledIRQ, irqMasked := true }) ∧
    HPS_IRQ_registerHandlers false junkNull emptyInitState
        (some [3]) (some [IsrFunc.fn 1]) none 1 =
      (HpsErr.ERR_ALLOCFAIL,
        { isInitialised := true, handlers := [],
          unhandledIRQCallback := IsrFunc.unhandledIRQ, irqMasked := true }) := by
  decide

/-- C8: _HPS_IRQ_growTable is a no-op success on zero growth; on
allocation failure it returns ERR_ALLOCFAIL leaving the state (count,
records, flags, mask) unchanged; on allocation success it succeeds,
preserves every existing record, adds exactly `n` slots to the count and
leaves the rest of the driver state unchanged. -/
theorem growTable_spec (allocOk : Bool) (junk : Nat → IsrHandler_t)
    (st : IRQState) (n : Nat) :
    (n = 0 → _HPS_IRQ_growTable allocOk junk st n = (HpsErr.ERR_SUCCESS, st)) ∧
    (n ≠ 0 → allocOk = false →
      _HPS_IRQ_growTable allocOk junk st n = (HpsErr.ERR_ALLOCFAIL, st)) ∧
    (allocOk = true →
      (_HPS_IRQ_growTable true junk st n).1 = HpsErr.ERR_SUCCESS ∧
      (_HPS_IRQ_growTable true junk st n).2.handlers.take st.handlers.length
        = st.handlers ∧
      (_HPS_IRQ_growTable true junk st n).2.handlers.length
        = st.handlers.length + n ∧
      (_HPS_IRQ_growTable true junk st n).2.isInitialised = st.isInitialised ∧
      (_HPS_IRQ_growTable true junk st n).2.unhandledIRQCallback
        = st.unhandledIRQCallback ∧
      (_HPS_IRQ_growTable true junk st n).2.irqMasked = st.irqMasked) := by
  refine ⟨fun h0 => ?_, fun hn ha => ?_, fun ha => ?_⟩
  · simp [_HPS_IRQ_growTable, h0]
  · simp [_HPS_IRQ_growTable, hn, ha]
  · subst ha
    by_cases h0 : n = 0
    · simp [_HPS_IRQ_growTable, h0]
    · simp [_HPS_IRQ_growTable, h0, List.take_left]

/-- Witness for C8 at a concrete registry. -/
theorem growTable_spec_witness :
    _HPS_IRQ_growTable true junkNull
      { isInitialised := true,
        handlers := [{ interruptID := 4, handler := IsrFunc.fn 2, param := 9,
                       enabled := true }],
        unhandledIRQCallback := IsrFunc.unhandledIRQ, irqMasked := true }
      2 = (HpsErr.ERR_SUCCESS,
        { isInitialised := true,
          handlers := [{ interruptID := 4, handler := IsrFunc.fn 2, param := 9,
                         enabled := true }, nullIsrHandler, nullIsrHandler],
          unhandledIRQCallback := IsrFunc.unhandledIRQ, irqMasked := true }) ∧
    (2 : Nat) ≠ 0 ∧
    _HPS_IRQ_growTable false junkNull emptyInitState 2
      = (HpsErr.ERR_ALLOCFAIL, emptyInitState) := by
  refine ⟨by decide, by decide, ?_⟩
  exact (growTable_spec false junkNull emptyInitState 2).2.1 (by decide) rfl

/-- An initialised driver holding one enabled record for interrupt 5. -/
def regState5 : IRQState :=
  { isInitialised := true,
    handlers := [{ interruptID := 5, handler := IsrFunc.fn 1, param := 7,
                   enabled := true }],
    unhandledIRQCallback := IsrFunc.unhandledIRQ, irqMasked := false }

/-- C2: on every entry of __irq_isr from an initialised state the trace
contains exactly one end-of-interrupt write, it carries the acknowledged
ID, and it is the final action — for every registry, every callback
behaviour and every acknowledged ID. -/
theorem irq_isr_eoi_exactly_once (st : IRQState)
    (setsHandled : IsrFunc → Nat → Nat → Bool) (int_ID : Nat)
    (hinit : st.isInitialised = true) :
    __irq_isr st setsHandled int_ID
      = some (__irq_isr_body st setsHandled int_ID) ∧
    (__irq_isr_body st setsHandled int_ID).filter IrqEvent.isEOI
      = [IrqEvent.writeEOI int_ID] ∧
    (__irq_isr_body st setsHandled int_ID).getLast?
      = some (IrqEvent.writeEOI int_ID) := by
  refine ⟨by simp [__irq_isr, hinit], ?_, ?_⟩
  · rw [__irq_isr_body]
    split
    · split <;> simp [IrqEvent.isEOI]
    · simp [IrqEvent.isEOI]
  · rw [__irq_isr_body]
    split
    · split <;> simp
    · simp

/-- Witness for C2 at a concrete one-record registry. -/
theorem irq_isr_eoi_exactly_once_witness :
    (__irq_isr_body regState5 (fun _ _ _ => true) 5).filter IrqEvent.isEOI
      = [IrqEvent.writeEOI 5] :=
  (irq_isr_eoi_exactly_once regState5 (fun _ _ _ => true) 5 rfl).2.1

/-- The state reached by initialise(); registerHandler(5, fn 1, 7);
unregisterHandler(5): one disabled record for ID 5 with a NULL function
pointer is left in the registry. -/
def disabledSlotState : IRQState :=
  (HPS_IRQ_unregisterHandler
    (HPS_IRQ_registerHandler true junkNull
      (HPS_IRQ_initialise uninitState IsrFunc.null).2 5 (IsrFunc.fn 1) 7).2
    5).2

/-- Decides whether every callback invocation of a dispatch trace hit an
enabled registry slot — the scanning discipline C1 attributes to
__irq_isr. -/
def callbackInvocationsEnabledOnly (st : IRQState) (tr : List IrqEvent) : Bool :=
  tr.all fun e =>
    match e with
    | IrqEvent.invokeCallback i _ _ _ => (st.handlers.getD i nullIsrHandler).enabled
    | _ => true

/-- C1 counterexample: in the reachable state left by registering and
then unregistering a handler for interrupt 5, no enabled record matches
ID 5, yet __irq_isr still invokes the disabled slot's (NULL) callback
before falling back — so dispatch does not restrict itself to enabled
records as the claim states. -/
theorem irq_dispatch_counterexample :
    disabledSlotState.isInitialised = true ∧
    (∀ slot ∈ disabledSlotState.handlers, slot.enabled = false) ∧
    __irq_isr disabledSlotState (fun _ _ _ => false) 5 =
      some [IrqEvent.invokeCallback 0 IsrFunc.null 5 7,
            IrqEvent.invokeFallback IsrFunc.unhandledIRQ 5,
            IrqEvent.writeEOI 5] ∧
    callbackInvocationsEnabledOnly disabledSlotState
      [IrqEvent.invokeCallback 0 IsrFunc.null 5 7,
       IrqEvent.invokeFallback IsrFunc.unhandledIRQ 5,
       IrqEvent.writeEOI 5] = false := by
  decide

/-- C1 as amended: from any initialised state, __irq_isr invokes the
callback of the first record whose interruptID matches the acknowledged
ID regardless of its enabled flag (no earlier slot matches), then invokes
the fallback with (ID, NULL, NULL) exactly when the callback left the
handled flag false; when no record matches at all it invokes only the
fallback; the end-of-interrupt write closes the trace either way. -/
theorem irq_dispatch_first_id_match (st : IRQState)
    (setsHandled : IsrFunc → Nat → Nat → Bool) (int_ID : Nat)
    (hinit : st.isInitialised = true) :
    __irq_isr st setsHandled int_ID
      = some (__irq_isr_body st setsHandled int_ID) ∧
    (∀ h : List.findIdx (fun r => r.interruptID == int_ID) st.handlers
        < st.handlers.length,
      (st.handlers.get
          ⟨List.findIdx (fun r => r.interruptID == int_ID) st.handlers, h⟩).interruptID
          = int_ID ∧
      (∀ j (hj : j < st.handlers.length),
        j < List.findIdx (fun r => r.interruptID == int_ID) st.handlers →
        (st.handlers.get ⟨j, hj⟩).interruptID ≠ int_ID) ∧
      __irq_isr_body st setsHandled int_ID =
        IrqEvent.invokeCallback
          (List.findIdx (fun r => r.interruptID == int_ID) st.handlers)
          (st.handlers.get
            ⟨List.findIdx (fun r => r.interruptID == int_ID) st.handlers, h⟩).handler
          int_ID
          (st.handlers.get
            ⟨List.findIdx (fun r => r.interruptID == int_ID) st.handlers, h⟩).param ::
        ((if setsHandled
              (st.handlers.get
                ⟨List.findIdx (fun r => r.interruptID == int_ID) st.handlers, h⟩).handler
              int_ID
              (st.handlers.get
                ⟨List.findIdx (fun r => r.interruptID == int_ID) st.handlers, h⟩).param
          then []
          else [IrqEvent.invokeFallback st.unhandledIRQCallback int_ID]) ++
         [IrqEvent.writeEOI int_ID])) ∧
    (List.findIdx (fun r => r.interruptID == int_ID) st.handlers
        = st.handlers.length →
      (∀ slot ∈ st.handlers, slot.interruptID ≠ int_ID) ∧
      __irq_isr_body st setsHandled int_ID =
        [IrqEvent.invokeFallback st.unhandledIRQCallback int_ID,
         IrqEvent.writeEOI int_ID]) := by
  refine ⟨by simp [__irq_isr, hinit], fun h => ⟨?_, fun j hj hlt => ?_, ?_⟩,
    fun hnone => ⟨fun slot hslot => ?_, ?_⟩⟩
  · have := List.findIdx_getElem (w := h)
    simpa using this
  · have hfalse : ((st.handlers.get ⟨j, hj⟩).interruptID == int_ID) = false :=
      List.not_of_lt_findIdx hlt
    simpa using hfalse
  · rw [__irq_isr_body, dif_pos h]
    rcases hb : setsHandled
        (st.handlers.get
          ⟨List.findIdx (fun r => r.interruptID == int_ID) st.handlers, h⟩).handler
        int_ID
        (st.handlers.get
          ⟨List.findIdx (fun r => r.interruptID == int_ID) st.handlers, h⟩).param
      with _ | _ <;>
      simp only [List.get_eq_getElem] at hb ⊢ <;> simp [hb]
  · have hall := List.findIdx_eq_length.mp hnone
    have := hall slot hslot
    simpa using this
  · rw [__irq_isr_body, dif_neg (by simp [hnone])]
    simp

/-- Witness for the amended C1 at a concrete one-record registry: the
trace invokes slot 0's callback and, since it reports unhandled, the
fallback, then writes EOI. -/
theorem irq_dispatch_first_id_match_witness :
    __irq_isr_body regState5 (fun _ _ _ => false) 5 =
      [IrqEvent.invokeCallback 0 (IsrFunc.fn 1) 5 7,
       IrqEvent.invokeFallback IsrFunc.unhandledIRQ 5,
       IrqEvent.writeEOI 5] := by
  have h := (irq_dispatch_first_id_match regState5 (fun _ _ _ => false) 5
    rfl).2.1 (by decide)
  simpa using h.2.2

/-- Helper: writing an element's own value back leaves a list
unchanged. -/
theorem set_getD_noop (l : List Nat) (i v : Nat) (h : i < l.length)
    (hv : l.getD i 0 = v) : l.set i v = l := by
  subst hv
  induction l generalizing i with
  | nil => simp at h
  | cons a t ih =>
    cases i with
    | zero => simp
    | succ j =>
      simp only [List.length_cons, Nat.add_lt_add_iff_right] at h
      simp only [List.getD_cons_succ, List.set_cons_succ, List.cons.injEq,
        true_and]
      exact ih j h

/-- Helper: findIdx over a mapped list is findIdx of the composed
predicate. -/
theorem findIdx_map_comp {α β : Type} (l : List α) (f : α → β)
    (p : β → Bool) : (l.map f).findIdx p = l.findIdx (fun x => p (f x)) := by
  induction l with
  | nil => rfl
  | cons a t ih => simp [List.findIdx_cons, ih]

/-- Helper: overwriting a slot with a record of equal predicate value
does not move the first hit of a linear scan. -/
theorem findIdx_set_congr {α : Type} (l : List α) (i : Nat) (v : α)
    (p : α → Bool) (h : i < l.length)
    (hp : p v = p (l.get ⟨i, h⟩)) : (l.set i v).findIdx p = l.findIdx p := by
  induction l generalizing i with
  | nil => simp at h
  | cons a t ih =>
    cases i with
    | zero =>
      simp only [List.get_eq_getElem, List.getElem_cons_zero] at hp
      simp [List.findIdx_cons, hp]
    | succ j =>
      simp only [List.length_cons, Nat.add_lt_add_iff_right] at h
      simp only [List.get_eq_getElem, List.getElem_cons_succ] at hp
      simp [List.findIdx_cons, ih j h hp]

/-- _HPS_IRQ_doUnregister changes exactly the addressed slot's function
pointer and enabled flag; the mask ends where it started. -/
theorem doUnregister_eq (st : IRQState) (i : Nat) :
    _HPS_IRQ_doUnregister st i =
      { st with handlers := (st.handlers.set i
          { interruptID := (st.handlers.getD i nullIsrHandler).interruptID,
            handler := IsrFunc.null,
            param := (st.handlers.getD i nullIsrHandler).param,
            enabled := false }) } := by
  obtain ⟨ini, hs, fb, m⟩ := st
  rw [_HPS_IRQ_doUnregister]
  cases m <;> simp [__disable_irq, __enable_irq]

/-- Helper: the interrupt-ID column of the registry is untouched by
_HPS_IRQ_doUnregister. -/
theorem idsOf_doUnregister (st : IRQState) (i : Nat) :
    idsOf (_HPS_IRQ_doUnregister st i).handlers = idsOf st.handlers := by
  rw [doUnregister_eq]
  by_cases h : i < st.handlers.length
  · simp only [idsOf, List.map_set]
    apply set_getD_noop
    · simpa using h
    · rw [List.getD_eq_getElem _ _ (by simpa using h)]
      rw [List.getD_eq_getElem _ _ h]
      simp
  · rw [List.set_eq_of_length_le (by omega)]

/-- Helper: _HPS_IRQ_findHandler only looks at the interrupt-ID
column. -/
theorem findHandler_eq_idsOf (hs : List IsrHandler_t) (interruptID : Nat) :
    _HPS_IRQ_findHandler hs interruptID
      = (idsOf hs).findIdx (fun x => x == interruptID) := by
  rw [_HPS_IRQ_findHandler, idsOf, findIdx_map_comp]

/-- Proof-level helper: the slot-write loop restricted to the
interrupt-ID column of the registry. -/
def _idsWriteLoop (l : List Nat) : List Nat → List Nat → List Nat
  | slot :: slots, interruptID :: ids => _idsWriteLoop (l.set slot interruptID) slots ids
  | _, _ => l

/-- The scan loop assigns one slot per index. -/
theorem regScanLoop_fst_length (hs : List IsrHandler_t) (g : Nat)
    (ids : List Nat) : (_regScanLoop hs g ids).1.length = ids.length := by
  induction ids generalizing g with
  | nil => rfl
  | cons interruptID rest ih =>
    simp only [_regScanLoop]
    split <;> simp [ih]

/-- The scan loop's final growBy counts every index whose ID has no slot
in the pre-call table — duplicates included. -/
theorem regScanLoop_snd (hs : List IsrHandler_t) (g : Nat) (ids : List Nat) :
    (_regScanLoop hs g ids).2
      = g + ids.countP (fun id => _HPS_IRQ_findHandler hs id == hs.length) := by
  induction ids generalizing g with
  | nil => simp [_regScanLoop]
  | cons interruptID rest ih =>
    simp only [_regScanLoop]
    by_cases hfound : _HPS_IRQ_findHandler hs interruptID = hs.length
    · rw [if_pos hfound]
      dsimp only
      rw [ih]
      have hc : (interruptID :: rest).countP
          (fun id => _HPS_IRQ_findHandler hs id == hs.length)
          = rest.countP
            (fun id => _HPS_IRQ_findHandler hs id == hs.length) + 1 := by
        simp [List.countP_cons, hfound]
      rw [hc]
      omega
    · rw [if_neg hfound]
      dsimp only
      rw [ih]
      have hc : (interruptID :: rest).countP
          (fun id => _HPS_IRQ_findHandler hs id == hs.length)
          = rest.countP
            (fun id => _HPS_IRQ_findHandler hs id == hs.length) := by
        simp [List.countP_cons, hfound]
      rw [hc]

/-- The record-level write loop does not change the table's length. -/
theorem regWriteLoop_length (slots : List Nat) (hs : List IsrHandler_t)
    (ids : List Nat) (fns : List IsrFunc) (ps : List Nat) :
    (_regWriteLoop hs slots ids fns ps).length = hs.length := by
  induction slots generalizing hs ids fns ps with
  | nil => rfl
  | cons s srest ih =>
    cases ids with
    | nil => rfl
    | cons a arest =>
      cases fns with
      | nil => rfl
      | cons b brest =>
        cases ps with
        | nil => rfl
        | cons c crest =>
          simp only [_regWriteLoop, _HPS_IRQ_doRegister]
          rw [ih]
          exact List.length_set hs s _

/-- On parallel arrays of equal length, the interrupt-ID column of the
record-level write loop is the ID-level write loop. -/
theorem idsOf_regWriteLoop (slots : List Nat) (hs : List IsrHandler_t)
    (ids : List Nat) (fns : List IsrFunc) (ps : List Nat)
    (h1 : ids.length = slots.length) (h2 : fns.length = slots.length)
    (h3 : ps.length = slots.length) :
    idsOf (_regWriteLoop hs slots ids fns ps)
      = _idsWriteLoop (idsOf hs) slots ids := by
  induction slots generalizing hs ids fns ps with
  | nil =>
    cases ids with
    | nil => rfl
    | cons a arest => simp at h1
  | cons s srest ih =>
    cases ids with
    | nil => simp at h1
    | cons a arest =>
      cases fns with
      | nil => simp at h2
      | cons b brest =>
        cases ps with
        | nil => simp at h3
        | cons c crest =>
          simp only [_regWriteLoop, _idsWriteLoop, _HPS_IRQ_doRegister]
          rw [ih _ arest brest crest (by simpa using h1) (by simpa using h2)
            (by simpa using h3)]
          congr 1
          simp [idsOf, List.map_set]

/-- Closed form of scan-then-write on the interrupt-ID column: positions
below the pre-call count keep their IDs (found indices rewrite a slot
with the very ID it already holds), and the fresh positions, taken in
order, receive exactly the IDs that were absent from the pre-call table,
duplicates included. -/
theorem idsWriteLoop_scan (hs0 : List IsrHandler_t) (ids : List Nat)
    (g : Nat) (cur : List Nat)
    (hlen : hs0.length + g
      + ids.countP (fun id => _HPS_IRQ_findHandler hs0 id == hs0.length)
      ≤ cur.length)
    (hpre : ∀ j, j < hs0.length → cur.getD j 0 = (idsOf hs0).getD j 0) :
    _idsWriteLoop cur (_regScanLoop hs0 g ids).1 ids
      = cur.take (hs0.length + g)
        ++ ids.filter (fun id => _HPS_IRQ_findHandler hs0 id == hs0.length)
        ++ cur.drop (hs0.length + g
            + ids.countP (fun id => _HPS_IRQ_findHandler hs0 id == hs0.length)) := by
  induction ids generalizing g cur with
  | nil =>
    simp [_regScanLoop, _idsWriteLoop, List.take_append_drop]
  | cons interruptID rest ih =>
    simp only [_regScanLoop]
    by_cases hfound : _HPS_IRQ_findHandler hs0 interruptID = hs0.length
    · rw [if_pos hfound]
      simp only [_idsWriteLoop, hfound]
      have hcnt : (interruptID :: rest).countP
          (fun id => _HPS_IRQ_findHandler hs0 id == hs0.length)
          = rest.countP
            (fun id => _HPS_IRQ_findHandler hs0 id == hs0.length) + 1 := by
        simp [List.countP_cons, hfound]
      rw [hcnt] at hlen
      have hn : hs0.length + g < cur.length := by omega
      have hset : cur.set (hs0.length + g) interruptID
          = cur.take (hs0.length + g)
            ++ interruptID :: cur.drop (hs0.length + g + 1) :=
        List.set_eq_take_cons_drop _ hn
      have hlentake : (cur.take (hs0.length + g)).length = hs0.length + g := by
        rw [List.length_take]
        omega
      have htake : (cur.set (hs0.length + g) interruptID).take
            (hs0.length + g + 1)
          = cur.take (hs0.length + g) ++ [interruptID] := by
        rw [hset, List.take_append_eq_append_take,
          List.take_of_length_le (by omega), hlentake]
        congr 1
        have : hs0.length + g + 1 - (hs0.length + g) = 1 := by omega
        rw [this]
        rfl
      have hdrop : ∀ m : Nat, (cur.set (hs0.length + g) interruptID).drop
            (hs0.length + g + 1 + m)
          = cur.drop (hs0.length + g + 1 + m) := by
        intro m
        rw [hset, List.drop_append_eq_append_drop,
          List.drop_eq_nil_of_le (by omega), hlentake]
        have : hs0.length + g + 1 + m - (hs0.length + g) = m + 1 := by omega
        rw [this, List.nil_append, List.drop_succ_cons, List.drop_drop]
      have hpre' : ∀ j, j < hs0.length →
          (cur.set (hs0.length + g) interruptID).getD j 0
            = (idsOf hs0).getD j 0 := by
        intro j hj
        have hne : hs0.length + g ≠ j := by omega
        rw [List.getD_eq_getElem?_getD, List.getElem?_set_ne hne,
          ← List.getD_eq_getElem?_getD]
        exact hpre j hj
      rw [ih (g + 1) (cur.set (hs0.length + g) interruptID)
        (by rw [List.length_set]; omega) hpre']
      have hplus : hs0.length + (g + 1) = hs0.length + g + 1 := by omega
      rw [hplus, htake, hdrop]
      have hfil : (interruptID :: rest).filter
          (fun id => _HPS_IRQ_findHandler hs0 id == hs0.length)
          = interruptID :: rest.filter
            (fun id => _HPS_IRQ_findHandler hs0 id == hs0.length) := by
        simp [List.filter_cons, hfound]
      rw [hcnt, hfil]
      have harith : hs0.length + g
          + (rest.countP
              (fun id => _HPS_IRQ_findHandler hs0 id == hs0.length) + 1)
          = hs0.length + g + 1
            + rest.countP
              (fun id => _HPS_IRQ_findHandler hs0 id == hs0.length) := by
        omega
      rw [harith]
      simp [List.append_assoc]
    · rw [if_neg hfound]
      simp only [_idsWriteLoop]
      have hlt : _HPS_IRQ_findHandler hs0 interruptID < hs0.length :=
        Nat.lt_of_le_of_ne (List.findIdx_le_length _) hfound
      have hcnt : (interruptID :: rest).countP
          (fun id => _HPS_IRQ_findHandler hs0 id == hs0.length)
          = rest.countP
            (fun id => _HPS_IRQ_findHandler hs0 id == hs0.length) := by
        simp [List.countP_cons, hfound]
      have hlt2 : List.findIdx (fun r => r.interruptID == interruptID) hs0
          < hs0.length := hlt
      have hval : cur.getD (_HPS_IRQ_findHandler hs0 interruptID) 0
          = interruptID := by
        rw [hpre _ hlt]
        have hidx : _HPS_IRQ_findHandler hs0 interruptID
            < (idsOf hs0).length := by
          simpa [idsOf] using hlt
        rw [List.getD_eq_getElem _ _ hidx]
        have hb := List.findIdx_getElem (w := hlt2)
        simp only [beq_iff_eq] at hb
        simpa [idsOf, _HPS_IRQ_findHandler] using hb
      have hlen' : hs0.length + g
          + rest.countP (fun id => _HPS_IRQ_findHandler hs0 id == hs0.length)
          ≤ cur.length := by
        rw [hcnt] at hlen
        exact hlen
      have hnoop : cur.set (_HPS_IRQ_findHandler hs0 interruptID) interruptID
          = cur :=
        set_getD_noop cur _ _ (by omega) hval
      rw [hnoop]
      rw [ih g cur hlen' hpre]
      have hfil : (interruptID :: rest).filter
          (fun id => _HPS_IRQ_findHandler hs0 id == hs0.length)
          = rest.filter
            (fun id => _HPS_IRQ_findHandler hs0 id == hs0.length) := by
        simp [List.filter_cons, hfound]
      rw [hfil, hcnt]

/-- Scan, grow by the number of absent indices, then write: on the
interrupt-ID column the net effect is appending, in call order, exactly
the IDs that had no slot before the call — duplicated absent IDs get one
appended slot each. -/
theorem idsOf_grow_write (hs0 : List IsrHandler_t) (junk : Nat → IsrHandler_t)
    (ids : List Nat) (fns : List IsrFunc) (ps : List Nat)
    (h2 : fns.length = ids.length) (h3 : ps.length = ids.length) :
    idsOf (_regWriteLoop
        (hs0 ++ (List.range (ids.countP
          (fun id => _HPS_IRQ_findHandler hs0 id == hs0.length))).map junk)
        (_regScanLoop hs0 0 ids).1 ids fns ps)
      = idsOf hs0
        ++ ids.filter (fun id => _HPS_IRQ_findHandler hs0 id == hs0.length) := by
  have hslots : ids.length = (_regScanLoop hs0 0 ids).1.length :=
    (regScanLoop_fst_length hs0 0 ids).symm
  rw [idsOf_regWriteLoop _ _ _ _ _ hslots (h2.trans hslots) (h3.trans hslots)]
  have hjunklen : (idsOf (hs0 ++ (List.range (ids.countP
      (fun id => _HPS_IRQ_findHandler hs0 id == hs0.length))).map junk)).length
      = hs0.length + ids.countP
        (fun id => _HPS_IRQ_findHandler hs0 id == hs0.length) := by
    simp [idsOf]
  have hpre : ∀ j, j < hs0.length →
      (idsOf (hs0 ++ (List.range (ids.countP
        (fun id => _HPS_IRQ_findHandler hs0 id == hs0.length))).map junk)).getD j 0
      = (idsOf hs0).getD j 0 := by
    intro j hj
    have hj' : j < (idsOf hs0).length := by simpa [idsOf] using hj
    simp only [idsOf, List.map_append]
    exact List.getD_append _ _ _ _ hj'
  rw [idsWriteLoop_scan hs0 ids 0
    (idsOf (hs0 ++ (List.range (ids.countP
      (fun id => _HPS_IRQ_findHandler hs0 id == hs0.length))).map junk))
    (by rw [hjunklen]; omega) hpre]
  have hids0len : (idsOf hs0).length = hs0.length := by simp [idsOf]
  have htake : (idsOf (hs0 ++ (List.range (ids.countP
      (fun id => _HPS_IRQ_findHandler hs0 id == hs0.length))).map junk)).take
        (hs0.length + 0)
      = idsOf hs0 := by
    simp only [idsOf, List.map_append, Nat.add_zero]
    rw [← hids0len]
    exact List.take_left _ _
  have hdrop : (idsOf (hs0 ++ (List.range (ids.countP
      (fun id => _HPS_IRQ_findHandler hs0 id == hs0.length))).map junk)).drop
        (hs0.length + 0 + ids.countP
          (fun id => _HPS_IRQ_findHandler hs0 id == hs0.length))
      = [] := by
    apply List.drop_eq_nil_of_le
    rw [hjunklen]
    omega
  rw [htake, hdrop, List.append_nil]

/-- Batch registration, allocator failing and at least one absent ID:
HPS_IRQ_registerHandlers returns ERR_ALLOCFAIL with the registry intact
but — through the early return — interrupts left masked. -/
theorem registerHandlers_allocfail (junk : Nat → IsrHandler_t)
    (st : IRQState) (idsArr : List Nat) (fnsArr : List IsrFunc)
    (hp : Option (List Nat)) (count : Nat)
    (hinit : st.isInitialised = true)
    (hcnt : ((List.range count).map (fun idx => idsArr.getD idx 0)).countP
        (fun id => _HPS_IRQ_findHandler st.handlers id == st.handlers.length)
        ≠ 0) :
    HPS_IRQ_registerHandlers false junk st (some idsArr) (some fnsArr) hp count
      = (HpsErr.ERR_ALLOCFAIL, { st with irqMasked := true }) := by
  unfold HPS_IRQ_registerHandlers
  rw [HPS_IRQ_isInitialised, hinit]
  simp only [Bool.not_true, Bool.false_eq_true, if_false]
  simp only [__disable_irq, regScanLoop_snd, Nat.zero_add, _HPS_IRQ_growTable,
    hcnt, if_false, Bool.not_false, if_true, IS_ERROR]
  simp [hinit]

/-- Batch registration on the success path (allocation succeeded, or no
growth was needed): the status is ERR_SUCCESS, the interrupt-ID column
becomes the old column plus, in call order, one appended slot per index
whose ID was absent before the call (duplicates included), and the
interrupt mask is restored to its pre-call state. -/
theorem registerHandlers_success (allocOk : Bool) (junk : Nat → IsrHandler_t)
    (st : IRQState) (idsArr : List Nat) (fnsArr : List IsrFunc)
    (hp : Option (List Nat)) (count : Nat)
    (hinit : st.isInitialised = true)
    (hsucc : allocOk = true ∨
      ((List.range count).map (fun idx => idsArr.getD idx 0)).countP
        (fun id => _HPS_IRQ_findHandler st.handlers id == st.handlers.length)
        = 0) :
    (HPS_IRQ_registerHandlers allocOk junk st (some idsArr) (some fnsArr)
        hp count).1 = HpsErr.ERR_SUCCESS ∧
    idsOf (HPS_IRQ_registerHandlers allocOk junk st (some idsArr) (some fnsArr)
        hp count).2.handlers
      = idsOf st.handlers
        ++ ((List.range count).map (fun idx => idsArr.getD idx 0)).filter
          (fun id => _HPS_IRQ_findHandler st.handlers id == st.handlers.length) ∧
    (HPS_IRQ_registerHandlers allocOk junk st (some idsArr) (some fnsArr)
        hp count).2.irqMasked = st.irqMasked ∧
    (HPS_IRQ_registerHandlers allocOk junk st (some idsArr) (some fnsArr)
        hp count).2.isInitialised = st.isInitialised ∧
    (HPS_IRQ_registerHandlers allocOk junk st (some idsArr) (some fnsArr)
        hp count).2.unhandledIRQCallback = st.unhandledIRQCallback := by
  have hwrite0 : ∀ (hs0 : List IsrHandler_t) (psl : List Nat),
      psl.length = count →
      ((List.range count).map (fun idx => idsArr.getD idx 0)).countP
        (fun id => _HPS_IRQ_findHandler hs0 id == hs0.length) = 0 →
      idsOf (_regWriteLoop hs0
        (_regScanLoop hs0 0
          ((List.range count).map (fun idx => idsArr.getD idx 0))).1
        ((List.range count).map (fun idx => idsArr.getD idx 0))
        ((List.range count).map (fun idx => fnsArr.getD idx IsrFunc.null))
        psl)
      = idsOf hs0
        ++ ((List.range count).map (fun idx => idsArr.getD idx 0)).filter
          (fun id => _HPS_IRQ_findHandler hs0 id == hs0.length) := by
    intro hs0 psl hlenp h0
    have := idsOf_grow_write hs0 junk
      ((List.range count).map (fun idx => idsArr.getD idx 0))
      ((List.range count).map (fun idx => fnsArr.getD idx IsrFunc.null))
      psl (by simp) (by simp [hlenp])
    rw [h0] at this
    simpa using this
  have hwrite1 : ∀ (hs0 : List IsrHandler_t) (psl : List Nat),
      psl.length = count →
      idsOf (_regWriteLoop
        (hs0 ++ (List.range
          (((List.range count).map (fun idx => idsArr.getD idx 0)).countP
            (fun id => _HPS_IRQ_findHandler hs0 id == hs0.length))).map junk)
        (_regScanLoop hs0 0
          ((List.range count).map (fun idx => idsArr.getD idx 0))).1
        ((List.range count).map (fun idx => idsArr.getD idx 0))
        ((List.range count).map (fun idx => fnsArr.getD idx IsrFunc.null))
        psl)
      = idsOf hs0
        ++ ((List.range count).map (fun idx => idsArr.getD idx 0)).filter
          (fun id => _HPS_IRQ_findHandler hs0 id == hs0.length) := by
    intro hs0 psl hlenp
    exact idsOf_grow_write hs0 junk _ _ _ (by simp) (by simp [hlenp])
  unfold HPS_IRQ_registerHandlers
  rw [HPS_IRQ_isInitialised, hinit]
  simp only [Bool.not_true, Bool.false_eq_true, if_false]
  by_cases hcnt0 : ((List.range count).map (fun idx => idsArr.getD idx 0)).countP
      (fun id => _HPS_IRQ_findHandler st.handlers id == st.handlers.length) = 0
  · simp only [__disable_irq, regScanLoop_snd, Nat.zero_add, hcnt0,
      _HPS_IRQ_growTable, if_true, IS_ERROR, Bool.false_eq_true, if_false]
    refine ⟨by simp, ?_, ?_, ?_, ?_⟩
    · cases hm : st.irqMasked <;>
      · simp only [hm, Bool.not_false, Bool.not_true, if_true, if_false,
          __enable_irq]
        exact hwrite0 st.handlers _ (by simp) hcnt0
    · cases hm : st.irqMasked <;> simp [__enable_irq, hm]
    · cases hm : st.irqMasked <;> simp [__enable_irq, hm, hinit]
    · cases hm : st.irqMasked <;> simp [__enable_irq, hm]
  · have hao : allocOk = true := by
      rcases hsucc with h | h
      · exact h
      · exact absurd h hcnt0
    subst hao
    simp only [__disable_irq, regScanLoop_snd, Nat.zero_add, hcnt0,
      _HPS_IRQ_growTable, if_false, IS_ERROR, Bool.not_true, Bool.false_eq_true,
      if_true]
    refine ⟨by simp, ?_, ?_, ?_, ?_⟩
    · cases hm : st.irqMasked <;>
      · simp only [hm, Bool.not_false, Bool.not_true, if_true, if_false,
          __enable_irq]
        exact hwrite1 st.handlers _ (by simp)
    · cases hm : st.irqMasked <;> simp [__enable_irq, hm]
    · cases hm : st.irqMasked <;> simp [__enable_irq, hm, hinit]
    · cases hm : st.irqMasked <;> simp [__enable_irq, hm]

/-- Helper: writing over the slot right after an appended element. -/
theorem set_append_singleton {α : Type} (l : List α) (x v : α) :
    (l ++ [x]).set l.length v = l ++ [v] := by
  induction l with
  | nil => rfl
  | cons a t ih => simp [ih]

/-- Full result of HPS_IRQ_registerHandler from an initialised state: a
found ID (enabled or disabled slot alike) is overwritten in place and the
mask restored; an absent ID appends one slot when the allocation
succeeds, and on allocation failure the function returns early with the
registry intact and interrupts left masked. -/
theorem registerHandler_sem (allocOk : Bool) (junk : Nat → IsrHandler_t)
    (st : IRQState) (interruptID : Nat) (fn : IsrFunc) (p : Nat)
    (hinit : st.isInitialised = true) :
    (_HPS_IRQ_findHandler st.handlers interruptID < st.handlers.length →
      HPS_IRQ_registerHandler allocOk junk st interruptID fn p
        = (HpsErr.ERR_SUCCESS, { st with handlers :=
            (st.handlers.set (_HPS_IRQ_findHandler st.handlers interruptID)
              { interruptID := interruptID, handler := fn, param := p,
                enabled := true }) })) ∧
    (_HPS_IRQ_findHandler st.handlers interruptID = st.handlers.length →
      HPS_IRQ_registerHandler true junk st interruptID fn p
        = (HpsErr.ERR_SUCCESS, { st with handlers :=
            (st.handlers ++ [{ interruptID := interruptID, handler := fn,
                               param := p, enabled := true }]) }) ∧
      HPS_IRQ_registerHandler false junk st interruptID fn p
        = (HpsErr.ERR_ALLOCFAIL, { st with irqMasked := true })) := by
  constructor
  · intro hlt
    have hne : ¬(_HPS_IRQ_findHandler st.handlers interruptID
        = st.handlers.length) := by omega
    unfold HPS_IRQ_registerHandler
    rw [HPS_IRQ_isInitialised, hinit]
    simp only [Bool.not_true, Bool.false_eq_true, if_false]
    simp only [__disable_irq, hne, if_false, IS_ERROR, Bool.false_eq_true,
      _HPS_IRQ_doRegister]
    cases hm : st.irqMasked <;> simp [__enable_irq, hm, hinit]
  · intro heq
    constructor
    · unfold HPS_IRQ_registerHandler
      rw [HPS_IRQ_isInitialised, hinit]
      simp only [Bool.not_true, Bool.false_eq_true, if_false]
      simp only [__disable_irq, heq, if_true, _HPS_IRQ_growTable,
        Nat.one_ne_zero, if_false, Bool.not_true, IS_ERROR, Bool.false_eq_true,
        _HPS_IRQ_doRegister]
      cases hm : st.irqMasked <;>
        simp [__enable_irq, hm, hinit, List.range_succ, heq,
          set_append_singleton]
    · unfold HPS_IRQ_registerHandler
      rw [HPS_IRQ_isInitialised, hinit]
      simp only [Bool.not_true, Bool.false_eq_true, if_false]
      simp only [__disable_irq, heq, if_true, _HPS_IRQ_growTable,
        Nat.one_ne_zero, if_false, Bool.not_false, if_true, IS_ERROR]
      simp [hinit]

/-- Result of HPS_IRQ_unregisterHandler from an initialised state: a
matching slot (enabled or disabled alike) is disabled and the call
succeeds; with no matching slot the registry is returned untouched with
ERR_NOTFOUND. -/
theorem unregisterHandler_sem (st : IRQState) (interruptID : Nat)
    (hinit : st.isInitialised = true) :
    (_HPS_IRQ_findHandler st.handlers interruptID < st.handlers.length →
      HPS_IRQ_unregisterHandler st interruptID
        = (HpsErr.ERR_SUCCESS,
            _HPS_IRQ_doUnregister st
              (_HPS_IRQ_findHandler st.handlers interruptID))) ∧
    (_HPS_IRQ_findHandler st.handlers interruptID = st.handlers.length →
      HPS_IRQ_unregisterHandler st interruptID = (HpsErr.ERR_NOTFOUND, st)) := by
  constructor
  · intro hlt
    have hne : ¬(_HPS_IRQ_findHandler st.handlers interruptID
        = st.handlers.length) := by omega
    unfold HPS_IRQ_unregisterHandler
    rw [HPS_IRQ_isInitialised, hinit]
    simp [hne]
  · intro heq
    unfold HPS_IRQ_unregisterHandler
    rw [HPS_IRQ_isInitialised, hinit]
    simp [heq]

/-- Helper: the ID stored at the slot that a successful lookup returns is
the ID that was looked up. -/
theorem idsOf_getD_findHandler (hs : List IsrHandler_t) (interruptID : Nat)
    (hlt : _HPS_IRQ_findHandler hs interruptID < hs.length) :
    (idsOf hs).getD (_HPS_IRQ_findHandler hs interruptID) 0 = interruptID := by
  have hlt2 : List.findIdx (fun r => r.interruptID == interruptID) hs
      < hs.length := hlt
  have hidx : _HPS_IRQ_findHandler hs interruptID < (idsOf hs).length := by
    simpa [idsOf] using hlt
  rw [List.getD_eq_getElem _ _ hidx]
  have hb := List.findIdx_getElem (w := hlt2)
  simp only [beq_iff_eq] at hb
  simpa [idsOf, _HPS_IRQ_findHandler] using hb

/-- Helper: a lookup that fell off the end means the ID is on no slot. -/
theorem not_mem_idsOf_of_findHandler_eq (hs : List IsrHandler_t)
    (interruptID : Nat)
    (heq : _HPS_IRQ_findHandler hs interruptID = hs.length) :
    interruptID ∉ idsOf hs := by
  intro hmem
  obtain ⟨r, hr, hrid⟩ := List.mem_map.mp hmem
  have := List.findIdx_eq_length.mp heq r hr
  simp [hrid] at this

/-- Helper: overwriting the slot a successful lookup returned with a
record carrying the looked-up ID leaves the ID column unchanged. -/
theorem idsOf_set_found (hs : List IsrHandler_t) (interruptID : Nat)
    (rec : IsrHandler_t)
    (hlt : _HPS_IRQ_findHandler hs interruptID < hs.length)
    (hrec : rec.interruptID = interruptID) :
    idsOf (hs.set (_HPS_IRQ_findHandler hs interruptID) rec) = idsOf hs := by
  rw [idsOf, List.map_set, hrec]
  exact set_getD_noop _ _ _ (by simpa [idsOf] using hlt)
    (idsOf_getD_findHandler hs interruptID hlt)

/-- HPS_IRQ_registerHandler never duplicates an interrupt ID across
slots. -/
theorem distinctIDs_registerHandler (allocOk : Bool)
    (junk : Nat → IsrHandler_t) (st : IRQState) (interruptID : Nat)
    (fn : IsrFunc) (p : Nat) (hd : DistinctIDs st.handlers) :
    DistinctIDs
      (HPS_IRQ_registerHandler allocOk junk st interruptID fn p).2.handlers := by
  by_cases hinit : st.isInitialised = true
  · by_cases hlt : _HPS_IRQ_findHandler st.handlers interruptID
        < st.handlers.length
    · rw [(registerHandler_sem allocOk junk st interruptID fn p hinit).1 hlt]
      unfold DistinctIDs
      rw [idsOf_set_found st.handlers interruptID _ hlt rfl]
      exact hd
    · have hle : _HPS_IRQ_findHandler st.handlers interruptID
          ≤ st.handlers.length := List.findIdx_le_length _
      have heq : _HPS_IRQ_findHandler st.handlers interruptID
          = st.handlers.length := by omega
      cases allocOk with
      | true =>
        rw [((registerHandler_sem true junk st interruptID fn p hinit).2
          heq).1]
        unfold DistinctIDs
        simp only [idsOf, List.map_append, List.map_cons, List.map_nil]
        rw [List.nodup_append]
        refine ⟨hd, by simp, ?_⟩
        intro a ha hb
        simp only [List.mem_cons, List.not_mem_nil, or_false] at hb
        exact not_mem_idsOf_of_findHandler_eq st.handlers interruptID heq
          (hb ▸ ha)
      | false =>
        rw [((registerHandler_sem false junk st interruptID fn p hinit).2
          heq).2]
        exact hd
  · unfold HPS_IRQ_registerHandler
    rw [HPS_IRQ_isInitialised]
    have : st.isInitialised = false := by
      cases h : st.isInitialised
      · rfl
      · exact absurd h hinit
    rw [this]
    simpa using hd

/-- HPS_IRQ_registerHandlers keeps interrupt IDs unique provided the
batch does not contain the same previously-absent ID twice. -/
theorem distinctIDs_registerHandlers (allocOk : Bool)
    (junk : Nat → IsrHandler_t) (st : IRQState)
    (interruptIDs : Option (List Nat)) (handlerFunctions : Option (List IsrFunc))
    (handlerParams : Option (List Nat)) (count : Nat)
    (hd : DistinctIDs st.handlers)
    (hok : OkOp st (RegOp.registerMany allocOk junk interruptIDs
      handlerFunctions handlerParams count)) :
    DistinctIDs (HPS_IRQ_registerHandlers allocOk junk st interruptIDs
      handlerFunctions handlerParams count).2.handlers := by
  by_cases hinit : st.isInitialised = true
  · match interruptIDs, handlerFunctions with
    | none, _ =>
      unfold HPS_IRQ_registerHandlers
      rw [HPS_IRQ_isInitialised, hinit]
      simpa using hd
    | some idsArr, none =>
      unfold HPS_IRQ_registerHandlers
      rw [HPS_IRQ_isInitialised, hinit]
      simpa using hd
    | some idsArr, some fnsArr =>
      by_cases hsucc : allocOk = true ∨
          ((List.range count).map (fun idx => idsArr.getD idx 0)).countP
            (fun id => _HPS_IRQ_findHandler st.handlers id
              == st.handlers.length) = 0
      · have h := (registerHandlers_success allocOk junk st idsArr fnsArr
          handlerParams count hinit hsucc).2.1
        unfold DistinctIDs
        rw [h, List.nodup_append]
        refine ⟨hd, ?_, ?_⟩
        · exact hok
        · intro a ha hb
          have hpb := List.of_mem_filter hb
          simp only [beq_iff_eq] at hpb
          exact not_mem_idsOf_of_findHandler_eq st.handlers a hpb ha
      · push_neg at hsucc
        obtain ⟨hao, hcnt⟩ := hsucc
        have hao' : allocOk = false := by
          cases allocOk
          · rfl
          · exact absurd rfl hao
        subst hao'
        rw [registerHandlers_allocfail junk st idsArr fnsArr handlerParams
          count hinit hcnt]
        exact hd
  · unfold HPS_IRQ_registerHandlers
    rw [HPS_IRQ_isInitialised]
    have : st.isInitialised = false := by
      cases h : st.isInitialised
      · rfl
      · exact absurd h hinit
    rw [this]
    simpa using hd

/-- HPS_IRQ_unregisterHandler leaves the ID column untouched. -/
theorem idsOf_unregisterHandler (st : IRQState) (interruptID : Nat) :
    idsOf (HPS_IRQ_unregisterHandler st interruptID).2.handlers
      = idsOf st.handlers := by
  unfold HPS_IRQ_unregisterHandler
  cases hini : st.isInitialised
  · simp [HPS_IRQ_isInitialised, hini]
  · rw [HPS_IRQ_isInitialised, hini]
    simp only [Bool.not_true, Bool.false_eq_true, if_false]
    by_cases hne : _HPS_IRQ_findHandler st.handlers interruptID
        ≠ st.handlers.length
    · rw [if_pos hne]
      exact idsOf_doUnregister st _
    · rw [if_neg hne]

/-- The batch unregister loop leaves the ID column untouched. -/
theorem idsOf_unregLoop (ids : List Nat) (acc : HpsErr × IRQState) :
    idsOf (_unregLoop acc ids).2.handlers = idsOf acc.2.handlers := by
  induction ids generalizing acc with
  | nil => rfl
  | cons interruptID rest ih =>
    unfold _unregLoop
    by_cases hne : _HPS_IRQ_findHandler acc.2.handlers interruptID
        ≠ acc.2.handlers.length
    · rw [if_pos hne, ih]
      exact idsOf_doUnregister acc.2 _
    · rw [if_neg hne, ih]

/-- HPS_IRQ_unregisterHandlers leaves the ID column untouched. -/
theorem idsOf_unregisterHandlers (st : IRQState)
    (interruptIDs : Option (List Nat)) (count : Nat) :
    idsOf (HPS_IRQ_unregisterHandlers st interruptIDs count).2.handlers
      = idsOf st.handlers := by
  unfold HPS_IRQ_unregisterHandlers
  cases hini : st.isInitialised
  · simp [HPS_IRQ_isInitialised, hini]
  · rw [HPS_IRQ_isInitialised, hini]
    cases interruptIDs with
    | none => simp
    | some idsArr =>
      simp only [Bool.not_true, Bool.false_eq_true, if_false]
      exact idsOf_unregLoop _ _

/-- Any single API call keeps the interrupt IDs of the registry unique,
under the batch-registration side condition. -/
theorem distinctIDs_applyOp (st : IRQState) (op : RegOp)
    (hd : DistinctIDs st.handlers) (hok : OkOp st op) :
    DistinctIDs (applyOp st op).handlers := by
  cases op with
  | register allocOk junk interruptID fn p =>
    exact distinctIDs_registerHandler allocOk junk st interruptID fn p hd
  | registerMany allocOk junk ids fns ps count =>
    exact distinctIDs_registerHandlers allocOk junk st ids fns ps count hd hok
  | unregister interruptID =>
    unfold DistinctIDs
    rw [show (applyOp st (RegOp.unregister interruptID)).handlers
        = (HPS_IRQ_unregisterHandler st interruptID).2.handlers from rfl]
    rw [idsOf_unregisterHandler]
    exact hd
  | unregisterMany ids count =>
    unfold DistinctIDs
    rw [show (applyOp st (RegOp.unregisterMany ids count)).handlers
        = (HPS_IRQ_unregisterHandlers st ids count).2.handlers from rfl]
    rw [idsOf_unregisterHandlers]
    exact hd

/-- Running a compliant sequence of API calls keeps interrupt IDs
unique. -/
theorem distinctIDs_runOps (ops : List RegOp) (st : IRQState)
    (hd : DistinctIDs st.handlers) (hok : OkRun st ops) :
    DistinctIDs (runOps st ops).handlers := by
  induction ops generalizing st with
  | nil => exact hd
  | cons op rest ih =>
    exact ih (applyOp st op) (distinctIDs_applyOp st op hd hok.1) hok.2

/-- Unique interrupt IDs give at most one enabled record per ID. -/
theorem atMostOneEnabled_of_distinct (hs : List IsrHandler_t)
    (hd : DistinctIDs hs) : AtMostOneEnabled hs := by
  intro interruptID
  have h1 : hs.countP (fun h => h.interruptID == interruptID && h.enabled)
      ≤ hs.countP (fun h => h.interruptID == interruptID) := by
    apply List.countP_mono_left
    intro a _ hpa
    exact (Bool.and_eq_true_iff.mp hpa).1
  have h2 : hs.countP (fun h => h.interruptID == interruptID)
      = (idsOf hs).count interruptID := by
    rw [idsOf, List.count, List.countP_map]
    rfl
  have h3 : (idsOf hs).count interruptID ≤ 1 :=
    List.nodup_iff_count_le_one.mp hd interruptID
  omega

/-- An OkRun covers each of its prefixes. -/
theorem okRun_take (pre suf : List RegOp) (st : IRQState)
    (hok : OkRun st (pre ++ suf)) : OkRun st pre := by
  induction pre generalizing st with
  | nil => trivial
  | cons op rest ih => exact ⟨hok.1, ih (applyOp st op) hok.2⟩

/-- C3 as amended: starting from an initialised empty registry, along
every sequence of register/unregister calls — single and batch forms —
in which no batch call registers the same previously-absent interrupt ID
twice, the registry holds at most one enabled record per interrupt ID at
every intermediate point. (Without the side condition the claim fails:
see the counterexample, where one batch call with a duplicated new ID
leaves two enabled records for that ID.) -/
theorem registry_at_most_one_enabled (st : IRQState) (ops : List RegOp)
    (h0 : st.handlers = []) (hok : OkRun st ops) :
    ∀ pre suf : List RegOp, ops = pre ++ suf →
      AtMostOneEnabled ((runOps st pre).handlers) := by
  intro pre suf hsplit
  have hd : DistinctIDs st.handlers := by
    rw [h0]
    simp [DistinctIDs, idsOf]
  refine atMostOneEnabled_of_distinct _ (distinctIDs_runOps pre st hd ?_)
  exact okRun_take pre suf st (hsplit ▸ hok)

/-- C3 counterexample: the single batch call registerHandlers(ids=[3,3,9],
count=3) from the initialised empty registry produces two enabled records
for interrupt ID 3, violating the at-most-one-enabled-record-per-ID
claim. -/
theorem registry_at_most_one_enabled_counterexample :
    ¬ AtMostOneEnabled
      (HPS_IRQ_registerHandlers true junkNull emptyInitState (some [3, 3, 9])
        (some [IsrFunc.fn 1, IsrFunc.fn 2, IsrFunc.fn 3]) none 3).2.handlers := by
  intro h
  exact absurd (h 3) (by decide)

/-- Witness for the amended C3 on a concrete compliant run: register 5,
unregister 5, then batch-register [3, 9]. -/
theorem registry_at_most_one_enabled_witness :
    AtMostOneEnabled
      (runOps emptyInitState
        [RegOp.register true junkNull 5 (IsrFunc.fn 1) 7,
         RegOp.unregister 5,
         RegOp.registerMany true junkNull (some [3, 9])
           (some [IsrFunc.fn 2, IsrFunc.fn 3]) none 2]).handlers := by
  refine registry_at_most_one_enabled emptyInitState
    [RegOp.register true junkNull 5 (IsrFunc.fn 1) 7,
     RegOp.unregister 5,
     RegOp.registerMany true junkNull (some [3, 9])
       (some [IsrFunc.fn 2, IsrFunc.fn 3]) none 2]
    rfl ⟨trivial, trivial, ?_, trivial⟩
    [RegOp.register true junkNull 5 (IsrFunc.fn 1) 7,
     RegOp.unregister 5,
     RegOp.registerMany true junkNull (some [3, 9])
       (some [IsrFunc.fn 2, IsrFunc.fn 3]) none 2]
    [] (List.append_nil _).symm
  show (((List.range 2).map (fun idx => ([3, 9] : List Nat).getD idx 0)).filter
    (fun id => _HPS_IRQ_findHandler
      (runOps emptyInitState
        [RegOp.register true junkNull 5 (IsrFunc.fn 1) 7,
         RegOp.unregister 5]).handlers id
      == (runOps emptyInitState
        [RegOp.register true junkNull 5 (IsrFunc.fn 1) 7,
         RegOp.unregister 5]).handlers.length)).Nodup
  decide

/-- C4 as amended: a batch registration with a working allocator succeeds
and grows the registry count by the number of indices in the call whose
ID was absent from the pre-call registry — duplicated absent IDs counted
once per occurrence, each receiving its own slot (so [3,3,9] on a
registry without 3 and 9 grows the count by 3, not 2). -/
theorem registerHandlers_count_change (junk : Nat → IsrHandler_t)
    (st : IRQState) (idsArr : List Nat) (fnsArr : List IsrFunc)
    (hp : Option (List Nat)) (count : Nat)
    (hinit : st.isInitialised = true) :
    (HPS_IRQ_registerHandlers true junk st (some idsArr) (some fnsArr)
        hp count).1 = HpsErr.ERR_SUCCESS ∧
    (HPS_IRQ_registerHandlers true junk st (some idsArr) (some fnsArr)
        hp count).2.handlers.length
      = st.handlers.length
        + ((List.range count).map (fun idx => idsArr.getD idx 0)).countP
          (fun id => _HPS_IRQ_findHandler st.handlers id
            == st.handlers.length) := by
  have h := registerHandlers_success true junk st idsArr fnsArr hp count
    hinit (Or.inl rfl)
  refine ⟨h.1, ?_⟩
  have hlen := congrArg List.length h.2.1
  simp only [idsOf, List.length_map, List.length_append] at hlen
  rw [hlen, List.countP_eq_length_filter]

/-- Witness for the amended C4: registering [3, 3, 9] on the empty
registry grows the count by the number of absent indices. -/
theorem registerHandlers_count_change_witness :
    (HPS_IRQ_registerHandlers true junkNull emptyInitState (some [3, 3, 9])
        (some [IsrFunc.fn 1, IsrFunc.fn 2, IsrFunc.fn 3]) none 3).1
      = HpsErr.ERR_SUCCESS ∧
    (HPS_IRQ_registerHandlers true junkNull emptyInitState (some [3, 3, 9])
        (some [IsrFunc.fn 1, IsrFunc.fn 2, IsrFunc.fn 3]) none 3).2.handlers.length
      = emptyInitState.handlers.length
        + ((List.range 3).map (fun idx => ([3, 3, 9] : List Nat).getD idx 0)).countP
          (fun id => _HPS_IRQ_findHandler emptyInitState.handlers id
            == emptyInitState.handlers.length) :=
  registerHandlers_count_change junkNull emptyInitState [3, 3, 9]
    [IsrFunc.fn 1, IsrFunc.fn 2, IsrFunc.fn 3] none 3 rfl

/-- C4 counterexample: registerHandlers(ids=[3,3,9], cbs=[a,b,c],
count=3) on the empty registry reserves two slots for ID 3 — the first
keeping callback a, so a is what dispatch would find, not b — and one
slot for ID 9: the count grows by 3, not by the 2 the claim states. -/
theorem registerHandlers_batch_duplicate_counterexample :
    HPS_IRQ_registerHandlers true junkNull emptyInitState (some [3, 3, 9])
        (some [IsrFunc.fn 1, IsrFunc.fn 2, IsrFunc.fn 3]) none 3
      = (HpsErr.ERR_SUCCESS,
          { isInitialised := true,
            handlers := [⟨3, IsrFunc.fn 1, 0, true⟩, ⟨3, IsrFunc.fn 2, 0, true⟩,
                         ⟨9, IsrFunc.fn 3, 0, true⟩],
            unhandledIRQCallback := IsrFunc.unhandledIRQ,
            irqMasked := false }) ∧
    (HPS_IRQ_registerHandlers true junkNull emptyInitState (some [3, 3, 9])
        (some [IsrFunc.fn 1, IsrFunc.fn 2, IsrFunc.fn 3]) none 3).2.handlers.length
      ≠ emptyInitState.handlers.length + 2 := by
  decide

/-- C6 as amended: after registering interrupt 5 the lookup returns its
slot with the registered callback, the first unregister succeeds — and a
second unregister succeeds as well, because the disabled slot still
matches by ID; ERR_NOTFOUND, with the registry returned untouched, is
reported exactly for IDs that occupy no slot at all. -/
theorem unregister_twice_and_notfound (st : IRQState) (interruptID : Nat)
    (hinit : st.isInitialised = true)
    (habsent : _HPS_IRQ_findHandler st.handlers interruptID
      = st.handlers.length) :
    HPS_IRQ_unregisterHandler st interruptID = (HpsErr.ERR_NOTFOUND, st) ∧
    (HPS_IRQ_registerHandler true junkNull emptyInitState 5
      (IsrFunc.fn 1) 7).1 = HpsErr.ERR_SUCCESS ∧
    _HPS_IRQ_findHandler (HPS_IRQ_registerHandler true junkNull emptyInitState
      5 (IsrFunc.fn 1) 7).2.handlers 5 = 0 ∧
    ((HPS_IRQ_registerHandler true junkNull emptyInitState 5
      (IsrFunc.fn 1) 7).2.handlers.getD 0 nullIsrHandler).handler
      = IsrFunc.fn 1 ∧
    (HPS_IRQ_unregisterHandler (HPS_IRQ_registerHandler true junkNull
      emptyInitState 5 (IsrFunc.fn 1) 7).2 5).1 = HpsErr.ERR_SUCCESS ∧
    (HPS_IRQ_unregisterHandler (HPS_IRQ_unregisterHandler
      (HPS_IRQ_registerHandler true junkNull emptyInitState 5
        (IsrFunc.fn 1) 7).2 5).2 5).1 = HpsErr.ERR_SUCCESS :=
  ⟨(unregisterHandler_sem st interruptID hinit).2 habsent,
   by decide, by decide, by decide, by decide, by decide⟩

/-- Witness for the amended C6: unregistering ID 9, which never had a
slot, reports not-found and returns the state untouched. -/
theorem unregister_twice_and_notfound_witness :
    HPS_IRQ_unregisterHandler emptyInitState 9
      = (HpsErr.ERR_NOTFOUND, emptyInitState) :=
  (unregister_twice_and_notfound emptyInitState 9 rfl rfl).1

/-- C6 counterexample: in the claim's own scenario — initialise, register
5, unregister 5 — a second unregisterHandler(5) returns ERR_SUCCESS, not
the ERR_NOTFOUND the claim states, because the disabled slot still
matches by interruptID. -/
theorem unregister_twice_counterexample :
    (HPS_IRQ_unregisterHandler (HPS_IRQ_unregisterHandler
      (HPS_IRQ_registerHandler true junkNull emptyInitState 5
        (IsrFunc.fn 1) 7).2 5).2 5).1 = HpsErr.ERR_SUCCESS ∧
    HpsErr.ERR_SUCCESS ≠ HpsErr.ERR_NOTFOUND := by
  decide

/-- C10: a successful unregister keeps the registry count, changes only
the matched slot — clearing its function pointer and enabled flag while
keeping its interruptID and param — leaves every other slot and the mask
state untouched, and a subsequent lookup of the same ID still returns the
same slot index (not the not-found sentinel). -/
theorem unregister_frame_effect (st : IRQState) (interruptID : Nat)
    (hinit : st.isInitialised = true)
    (hfound : _HPS_IRQ_findHandler st.handlers interruptID
      < st.handlers.length) :
    (HPS_IRQ_unregisterHandler st interruptID).1 = HpsErr.ERR_SUCCESS ∧
    (HPS_IRQ_unregisterHandler st interruptID).2.handlers.length
      = st.handlers.length ∧
    (∀ j, j < st.handlers.length →
      j ≠ _HPS_IRQ_findHandler st.handlers interruptID →
      (HPS_IRQ_unregisterHandler st interruptID).2.handlers.getD j
          nullIsrHandler
        = st.handlers.getD j nullIsrHandler) ∧
    ((HPS_IRQ_unregisterHandler st interruptID).2.handlers.getD
        (_HPS_IRQ_findHandler st.handlers interruptID)
        nullIsrHandler).interruptID
      = (st.handlers.getD (_HPS_IRQ_findHandler st.handlers interruptID)
          nullIsrHandler).interruptID ∧
    ((HPS_IRQ_unregisterHandler st interruptID).2.handlers.getD
        (_HPS_IRQ_findHandler st.handlers interruptID)
        nullIsrHandler).param
      = (st.handlers.getD (_HPS_IRQ_findHandler st.handlers interruptID)
          nullIsrHandler).param ∧
    ((HPS_IRQ_unregisterHandler st interruptID).2.handlers.getD
        (_HPS_IRQ_findHandler st.handlers interruptID)
        nullIsrHandler).handler = IsrFunc.null ∧
    ((HPS_IRQ_unregisterHandler st interruptID).2.handlers.getD
        (_HPS_IRQ_findHandler st.handlers interruptID)
        nullIsrHandler).enabled = false ∧
    _HPS_IRQ_findHandler
        (HPS_IRQ_unregisterHandler st interruptID).2.handlers interruptID
      = _HPS_IRQ_findHandler st.handlers interruptID ∧
    (HPS_IRQ_unregisterHandler st interruptID).2.irqMasked = st.irqMasked := by
  have hres := (unregisterHandler_sem st interruptID hinit).1 hfound
  rw [hres, doUnregister_eq]
  have hgetset : ((st.handlers.set
      (_HPS_IRQ_findHandler st.handlers interruptID)
      { interruptID := (st.handlers.getD
          (_HPS_IRQ_findHandler st.handlers interruptID)
          nullIsrHandler).interruptID,
        handler := IsrFunc.null,
        param := (st.handlers.getD
          (_HPS_IRQ_findHandler st.handlers interruptID)
          nullIsrHandler).param,
        enabled := false })).getD
      (_HPS_IRQ_findHandler st.handlers interruptID) nullIsrHandler
      = { interruptID := (st.handlers.getD
            (_HPS_IRQ_findHandler st.handlers interruptID)
            nullIsrHandler).interruptID,
          handler := IsrFunc.null,
          param := (st.handlers.getD
            (_HPS_IRQ_findHandler st.handlers interruptID)
            nullIsrHandler).param,
          enabled := false } := by
    rw [List.getD_eq_getElem?_getD, List.getElem?_set_self (by omega)]
    rfl
  refine ⟨rfl, List.length_set _ _ _, ?_, ?_, ?_, ?_, ?_, ?_, rfl⟩
  · intro j hj hne
    rw [List.getD_eq_getElem?_getD,
      List.getElem?_set_ne (by omega : _HPS_IRQ_findHandler st.handlers
        interruptID ≠ j), ← List.getD_eq_getElem?_getD]
  · rw [hgetset]
  · rw [hgetset]
  · rw [hgetset]
  · rw [hgetset]
  · apply findIdx_set_congr
    · rw [List.getD_eq_getElem _ _ hfound]
      simp
    · exact hfound

/-- Witness for C10 at the one-record registry holding interrupt 5:
unregistering succeeds and the lookup still returns slot 0. -/
theorem unregister_frame_effect_witness :
    (HPS_IRQ_unregisterHandler regState5 5).1 = HpsErr.ERR_SUCCESS ∧
    _HPS_IRQ_findHandler
        (HPS_IRQ_unregisterHandler regState5 5).2.handlers 5
      = _HPS_IRQ_findHandler regState5.handlers 5 := by
  have h := unregister_frame_effect regState5 5 rfl (by decide)
  exact ⟨h.1, h.2.2.2.2.2.2.2.1⟩

